import Mathlib

/-!
Verification of the layered ETL pipeline in `src/etl/flows.py`
(medallion architecture: raw CSV → bronze → silver → gold KPI tables).

Shallow embedding conventions:
* pandas DataFrames become `List` of per-row structures;
* SQL / pandas date and timestamp cells become `Option` values
  (`none` = NULL / NaT, produced by `pd.to_datetime(errors=coerce)`);
* calendar dates are a `(year, month, day)` structure compared
  lexicographically (which agrees with calendar order on valid dates);
* datetime columns that are only ever subtracted (`punch_in_datetime`,
  `scheduled_start_datetime`, ...) are modelled at second precision as
  `Option Int` (seconds since an arbitrary epoch);
* floats become `ℚ`; the int-encoded boolean flags (`.astype(int)`)
  become `Nat` values `0`/`1`;
* `pd.to_datetime` itself is an external library routine, so the
  transform tasks are parameterized by the coercion functions
  `parseD : String → Option Date` / `parseT : String → Option Int`.
-/

namespace ETL

/-- `astype(int)` applied to a pandas boolean column. -/
def b2i (b : Bool) : Nat := if b then 1 else 0

/-- Calendar date (`hire_date`, `term_date`, `punch_apply_date`, ...). -/
structure Date where
  y : Nat
  m : Nat
  d : Nat
deriving DecidableEq

/-- SQL `<=` on dates: lexicographic on (year, month, day). -/
def Date.leb (a b : Date) : Bool :=
  decide (a.y < b.y) ||
    (decide (a.y = b.y) && (decide (a.m < b.m) || (decide (a.m = b.m) && decide (a.d ≤ b.d))))

/-- SQL `<` on dates. -/
def Date.ltb (a b : Date) : Bool :=
  decide (a.y < b.y) ||
    (decide (a.y = b.y) && (decide (a.m < b.m) || (decide (a.m = b.m) && decide (a.d < b.d))))

/-- Serial day number of a proleptic-Gregorian date (days since 0000-03-01);
    used to model day differences of pandas midnight timestamps
    (`(t2 - t1).dt.days`, and Postgres `term_date - hire_date` intervals). -/
def dayNumber (dt : Date) : Nat :=
  let y := if dt.m ≤ 2 then dt.y - 1 else dt.y
  let era := y / 400
  let yoe := y % 400
  let mp := (dt.m + 9) % 12
  let doy := (153 * mp + 2) / 5 + dt.d - 1
  let doe := yoe * 365 + yoe / 4 - yoe / 100 + doy
  era * 146097 + doe

/-- `DATE_TRUNC(month, d)` as a grouping key; NULL stays NULL. -/
def monthKey (d : Option Date) : Option (Nat × Nat) :=
  d.map (fun x => (x.y, x.m))

/-- `DATE_TRUNC(week, d)` as a grouping key: serial day number of the
    preceding (or equal) Monday.  Mondays have `dayNumber ≡ 5 [MOD 7]`. -/
def weekKey (d : Option Date) : Option Nat :=
  d.map (fun x => dayNumber x - ((dayNumber x + 2) % 7))

/-- Postgres `ROUND(x::numeric, 2)`: half away from zero at 2 decimals. -/
def round2 (q : ℚ) : ℚ :=
  (((if q < 0 then -Int.floor (-(q * 100) + 1 / 2) else Int.floor (q * 100 + 1 / 2)) : ℤ) : ℚ)
    / 100

/-- SQL `AVG` over the (non-NULL) values of a group. -/
def avgQ (l : List ℚ) : ℚ := l.sum / (l.length : ℚ)

/-! ### First-occurrence deduplication

`DataFrame.drop_duplicates(subset=key, keep=first)` and SQL
`SELECT DISTINCT` (where only the element set matters).  The accumulator
`seen` holds the key values already encountered. -/

/-- Worker for `dedupByKey`; keeps a row iff its key was not seen before. -/
def dedupByKeyAux {α κ : Type} [DecidableEq κ] (key : α → κ) (seen : List κ) :
    List α → List α
  | [] => []
  | a :: l =>
    if key a ∈ seen then dedupByKeyAux key seen l
    else a :: dedupByKeyAux key (key a :: seen) l

/-- `drop_duplicates(subset=key, keep=first)`. -/
def dedupByKey {α κ : Type} [DecidableEq κ] (key : α → κ) (l : List α) : List α :=
  dedupByKeyAux key [] l

/-! ### Order relations used by the ORDER BY clauses

Postgres defaults: ascending sorts put NULLs last, descending sorts put
NULLs first.  Relations are total preorders; `List.insertionSort` from
Mathlib materializes the ORDER BY. -/

/-- Descending order on nullable month keys (NULLS FIRST). -/
def optMonthDescB (a b : Option (Nat × Nat)) : Bool :=
  match a, b with
  | none, _ => true
  | some _, none => false
  | some x, some y =>
    decide (y.1 < x.1) || (decide (y.1 = x.1) && decide (y.2 ≤ x.2))

def optMonthDescRel (a b : Option (Nat × Nat)) : Prop := optMonthDescB a b = true

instance : DecidableRel optMonthDescRel :=
  fun a b => inferInstanceAs (Decidable (optMonthDescB a b = true))

/-- Descending order on non-null month keys. -/
def monthDescRel (a b : (Nat × Nat) × Nat) : Prop :=
  b.1.1 < a.1.1 ∨ (b.1.1 = a.1.1 ∧ b.1.2 ≤ a.1.2)

instance : DecidableRel monthDescRel :=
  fun a b => inferInstanceAs (Decidable (b.1.1 < a.1.1 ∨ (b.1.1 = a.1.1 ∧ b.1.2 ≤ a.1.2)))

/-- Ascending order on nullable dates (NULLS LAST), for window PARTITION
    ... ORDER BY. -/
def dateAscB (a b : Option Date) : Bool :=
  match a, b with
  | none, none => true
  | none, some _ => false
  | some _, none => true
  | some x, some y => x.leb y

def dateAscRel (a b : Option Date) : Prop := dateAscB a b = true

instance : DecidableRel dateAscRel :=
  fun a b => inferInstanceAs (Decidable (dateAscB a b = true))

/-- Descending order on nullable dates (NULLS FIRST). -/
def dateDescB (a b : Option Date) : Bool :=
  match a, b with
  | none, _ => true
  | some _, none => false
  | some x, some y => y.leb x

/-- ORDER BY `late_arrival_count` (resp. days, departures) DESC on the
    rows `(client_employee_id, count, aggregate)` of the per-flag KPIs. -/
def countGe (a b : Option String × Nat × ℚ) : Prop := b.2.1 ≤ a.2.1

instance : DecidableRel countGe :=
  fun a b => inferInstanceAs (Decidable (b.2.1 ≤ a.2.1))

instance : IsTotal (Option String × Nat × ℚ) countGe :=
  ⟨fun a b => Nat.le_total b.2.1 a.2.1⟩

instance : IsTrans (Option String × Nat × ℚ) countGe :=
  ⟨fun _ _ _ hab hbc => Nat.le_trans hbc hab⟩

/-- ORDER BY `avg_tenure_years` DESC (nullable, NULLS FIRST) in
    `kpi_avg_tenure`. -/
def avgTenDescB (a b : String × Option ℚ × Nat) : Bool :=
  match a.2.1, b.2.1 with
  | none, _ => true
  | some _, none => false
  | some x, some y => decide (y ≤ x)

def avgTenDescRel (a b : String × Option ℚ × Nat) : Prop := avgTenDescB a b = true

instance : DecidableRel avgTenDescRel :=
  fun a b => inferInstanceAs (Decidable (avgTenDescB a b = true))

/-- ORDER BY `week` DESC, `avg_hours` DESC in `kpi_avg_working_hours`. -/
def wawDescB (a b : Option String × Option Nat × ℚ × Nat) : Bool :=
  match a.2.1, b.2.1 with
  | none, none => decide (b.2.2.1 ≤ a.2.2.1)
  | none, some _ => true
  | some _, none => false
  | some x, some y =>
    if x = y then decide (b.2.2.1 ≤ a.2.2.1) else decide (y ≤ x)

def wawDescRel (a b : Option String × Option Nat × ℚ × Nat) : Prop := wawDescB a b = true

instance : DecidableRel wawDescRel :=
  fun a b => inferInstanceAs (Decidable (wawDescB a b = true))

/-- ORDER BY `punch_apply_date` DESC in `kpi_rolling_avg`. -/
def rollDescRel (a b : Option String × Option Date × ℚ) : Prop := dateDescB a.2.1 b.2.1 = true

instance : DecidableRel rollDescRel :=
  fun a b => inferInstanceAs (Decidable (dateDescB a.2.1 b.2.1 = true))

/-- Sort relation on raw timesheet partitions: window `ORDER BY
    punch_apply_date` (ascending, NULLS LAST). -/
def tsDateAscRel {σ : Type} (date : σ → Option Date) (a b : σ) : Prop :=
  dateAscB (date a) (date b) = true

instance {σ : Type} (date : σ → Option Date) : DecidableRel (tsDateAscRel date) :=
  fun a b => inferInstanceAs (Decidable (dateAscB (date a) (date b) = true))

/-! ### Data model -/

/-- One row of the raw employee roster (`employee*.csv`) after the
    extract task: string cells trimmed, identifiers kept as strings.
    Date cells are `Option String` (`none` = empty/NaN cell); only the
    columns the pipeline touches are modelled. -/
structure RawEmployee where
  client_employee_id : Option String
  department_name : Option String
  hire_date : Option String
  term_date : Option String
  dob : Option String
  job_start_date : Option String
  active_status : Option ℚ
  fte_status : Option String
deriving DecidableEq

/-- One row of the concatenated raw timesheet files (`timesheet*.csv`). -/
structure RawTimesheet where
  client_employee_id : Option String
  punch_apply_date : Option String
  punch_in_datetime : Option String
  punch_out_datetime : Option String
  scheduled_start_datetime : Option String
  scheduled_end_datetime : Option String
  pay_code : Option String
  hours_worked : ℚ
deriving DecidableEq

/-- One row of `silver_employees` (output of `transform_employees`). -/
structure SilverEmployee where
  client_employee_id : Option String
  department_name : Option String
  hire_date : Option Date
  term_date : Option Date
  dob : Option Date
  job_start_date : Option Date
  active_status : ℚ
  fte_status : String
  is_active : Nat
  tenure_days : Option Int
deriving DecidableEq

/-- One row of `silver_timesheets` (output of `transform_timesheets`). -/
structure SilverTimesheet where
  client_employee_id : Option String
  punch_apply_date : Option Date
  punch_in_datetime : Option Int
  punch_out_datetime : Option Int
  scheduled_start_datetime : Option Int
  scheduled_end_datetime : Option Int
  pay_code : Option String
  hours_worked : ℚ
  is_normal_work : Nat
  minutes_late : ℚ
  minutes_early : ℚ
  is_late : Nat
  is_early : Nat
  is_overtime : Nat
deriving DecidableEq

/-! ### Silver transformer (`transform_employees`, `transform_timesheets`) -/

/-- `(term_date.fillna(now) - hire_date).dt.days`: whole days between
    the midnight timestamp `hire_date` and `term_date` (or the run time
    `now` when `term_date` is NaT); NaN when `hire_date` is NaT. -/
def tenureDays (hire term : Option Date) (now : Date) : Option Int :=
  hire.map (fun h => (dayNumber (term.getD now) : Int) - (dayNumber h : Int))

/-- Column derivation of one employee row (lines 108-121 of flows.py):
    lenient date coercion, `fillna` defaults, derived `is_active` and
    `tenure_days`. -/
def transformEmpRow (parseD : String → Option Date) (now : Date) (r : RawEmployee) :
    SilverEmployee :=
  let hire := r.hire_date.bind parseD
  let term := r.term_date.bind parseD
  { client_employee_id := r.client_employee_id
    department_name := r.department_name
    hire_date := hire
    term_date := term
    dob := r.dob.bind parseD
    job_start_date := r.job_start_date.bind parseD
    active_status := r.active_status.getD 1
    fte_status := r.fte_status.getD "Unknown"
    is_active := b2i term.isNone
    tenure_days := tenureDays hire term now }

/-- `transform_employees`: `drop_duplicates(subset=[client_employee_id],
    keep=first)` on the raw rows, then per-row column derivation. -/
def transformEmployees (parseD : String → Option Date) (now : Date)
    (l : List RawEmployee) : List SilverEmployee :=
  (dedupByKey (fun r => r.client_employee_id) l).map (transformEmpRow parseD now)

/-- `(punch_in_datetime - scheduled_start_datetime).dt.total_seconds() / 60`
    with `.fillna(0)`: NaT on either side gives 0. -/
def minutesDiff (later earlier : Option Int) : ℚ :=
  match later, earlier with
  | some a, some b => ((a - b : Int) : ℚ) / 60
  | _, _ => 0

/-- `pay_code.str.contains(normal_worked, case=False, na=False)`. -/
def isNormalPay (pc : Option String) : Bool :=
  match pc with
  | none => false
  | some s => decide (2 ≤ (s.toLower.splitOn "normal_worked").length)

/-- Column derivation of one timesheet row (lines 138-159 of flows.py):
    lenient datetime coercion, `is_normal_work`, `minutes_late`,
    `minutes_early` and the ±5-minute / 8.5-hour flags. -/
def transformTsRow (parseD : String → Option Date) (parseT : String → Option Int)
    (r : RawTimesheet) : SilverTimesheet :=
  let pin := r.punch_in_datetime.bind parseT
  let pout := r.punch_out_datetime.bind parseT
  let sstart := r.scheduled_start_datetime.bind parseT
  let send := r.scheduled_end_datetime.bind parseT
  let ml := minutesDiff pin sstart
  let mearly := minutesDiff send pout
  { client_employee_id := r.client_employee_id
    punch_apply_date := r.punch_apply_date.bind parseD
    punch_in_datetime := pin
    punch_out_datetime := pout
    scheduled_start_datetime := sstart
    scheduled_end_datetime := send
    pay_code := r.pay_code
    hours_worked := r.hours_worked
    is_normal_work := b2i (isNormalPay r.pay_code)
    minutes_late := ml
    minutes_early := mearly
    is_late := b2i (decide (5 < ml))
    is_early := b2i (decide (5 < mearly))
    is_overtime := b2i (decide ((8.5 : ℚ) < r.hours_worked)) }

/-- Deduplication key of `transform_timesheets`, line 135: the raw
    (uncoerced) `client_employee_id` and `punch_in_datetime` cells —
    the dedup runs before `pd.to_datetime`. -/
def tsRawKey (r : RawTimesheet) : Option String × Option String :=
  (r.client_employee_id, r.punch_in_datetime)

/-- `transform_timesheets`: dedup on the raw key first, then coercion
    and column derivation. -/
def transformTimesheets (parseD : String → Option Date) (parseT : String → Option Int)
    (l : List RawTimesheet) : List SilverTimesheet :=
  (dedupByKey tsRawKey l).map (transformTsRow parseD parseT)

/-! ### KPI engine (`generate_kpis`): the nine gold queries -/

/-- Distinct `(client_employee_id, hire_date, term_date)` triples: the
    subquery `SELECT DISTINCT ... FROM silver_employees` of
    `kpi_active_headcount`. -/
abbrev EmpKey := Option String × Option Date × Option Date

def empKey (e : SilverEmployee) : EmpKey := (e.client_employee_id, e.hire_date, e.term_date)

/-- The CASE predicate of `kpi_active_headcount`:
    `hire_date <= punch_apply_date AND (term_date IS NULL OR term_date >
    punch_apply_date)`; NULL `hire_date` or `punch_apply_date` makes the
    predicate unknown (the CASE then yields NULL). -/
def activeOnB (hire term punch : Option Date) : Bool :=
  match punch, hire with
  | some d, some h =>
    h.leb d && (match term with
                | none => true
                | some tm => d.ltb tm)
  | _, _ => false

/-- `CASE WHEN ... THEN e.client_employee_id END` for one
    (timesheet row, employee triple) pair of the cross join. -/
def caseSel (e : EmpKey) (t : SilverTimesheet) : Option String :=
  if activeOnB e.2.1 e.2.2 t.punch_apply_date then e.1 else none

/-- `FROM silver_timesheets ts CROSS JOIN (...) e`. -/
def crossPairs (ts : List SilverTimesheet) (es : List EmpKey) :
    List (SilverTimesheet × EmpKey) :=
  ts.flatMap (fun t => es.map (fun e => (t, e)))

/-- The non-NULL values of the CASE expression inside one month group. -/
def headcountIds (ts : List SilverTimesheet) (emps : List SilverEmployee)
    (m : Option (Nat × Nat)) : List String :=
  ((crossPairs ts (dedupByKey (fun x => x) (emps.map empKey))).filter
      (fun p => decide (monthKey p.1.punch_apply_date = m))).filterMap
    (fun p => caseSel p.2 p.1)

/-- `COUNT(DISTINCT CASE ... END)` for one month group. -/
def headcountFor (ts : List SilverTimesheet) (emps : List SilverEmployee)
    (m : Option (Nat × Nat)) : Nat :=
  (dedupByKey (fun x => x) (headcountIds ts emps m)).length

/-- The `kpi_active_headcount` gold table: one row per month present in
    `silver_timesheets`, ordered month DESC. -/
def kpiActiveHeadcount (ts : List SilverTimesheet) (emps : List SilverEmployee) :
    List (Option (Nat × Nat) × Nat) :=
  let months := dedupByKey (fun x => x) (ts.map (fun t => monthKey t.punch_apply_date))
  (List.insertionSort optMonthDescRel months).map (fun m => (m, headcountFor ts emps m))

/-- The `kpi_turnover_trend` gold table: terminations per month of
    `term_date`, rows with NULL `term_date` excluded, ordered month DESC. -/
def kpiTurnoverTrend (emps : List SilverEmployee) : List ((Nat × Nat) × Nat) :=
  let terms := emps.filterMap (fun e => e.term_date)
  let keys := dedupByKey (fun x => x) (terms.map (fun d => (d.y, d.m)))
  List.insertionSort monthDescRel
    (keys.map (fun mo => (mo, (terms.filter (fun d => decide ((d.y, d.m) = mo))).length)))

/-- The `kpi_avg_tenure` gold table:
    `ROUND(AVG(tenure_days) / 365.25, 2)` and `COUNT(*)` per non-NULL
    department (SQL `AVG` ignores NULL `tenure_days`; an all-NULL group
    averages to NULL), ordered avg DESC. -/
def kpiAvgTenure (emps : List SilverEmployee) : List (String × Option ℚ × Nat) :=
  let es := emps.filter (fun e => decide (e.department_name ≠ none))
  let deps := dedupByKey (fun x => x) (es.filterMap (fun e => e.department_name))
  List.insertionSort avgTenDescRel
    (deps.map (fun d0 =>
      let g := es.filter (fun e => decide (e.department_name = some d0))
      let tv := g.filterMap (fun e => e.tenure_days)
      (d0,
        (if tv.length = 0 then none
         else some (round2 (avgQ (tv.map (fun z => (z : ℚ))) / (1461 / 4)))),
        g.length)))

/-- The `kpi_avg_working_hours` gold table: `ROUND(AVG(hours_worked), 2)`
    and `COUNT(*)` per (employee, week), over `is_normal_work = 1` rows,
    ordered week DESC then avg DESC. -/
def kpiAvgWorkingHours (ts : List SilverTimesheet) :
    List (Option String × Option Nat × ℚ × Nat) :=
  let nw := ts.filter (fun r => decide (r.is_normal_work = 1))
  let keys := dedupByKey (fun x => x)
    (nw.map (fun r => (r.client_employee_id, weekKey r.punch_apply_date)))
  List.insertionSort wawDescRel
    (keys.map (fun k =>
      let g := nw.filter
        (fun r => decide ((r.client_employee_id, weekKey r.punch_apply_date) = k))
      (k.1, k.2, round2 (avgQ (g.map (fun r => r.hours_worked))), g.length)))

/-- Rows of `silver_timesheets` that pass `flag = 1 AND is_normal_work = 1`
    (the WHERE clause shared by `kpi_late_arrivals`,
    `kpi_early_departures` and `kpi_overtime`). -/
def qualRows (flag : SilverTimesheet → Nat) (ts : List SilverTimesheet) :
    List SilverTimesheet :=
  ts.filter (fun r => decide (flag r = 1) && decide (r.is_normal_work = 1))

/-- Shared shape of `kpi_late_arrivals` / `kpi_early_departures` /
    `kpi_overtime`: group the qualifying rows by employee, emit
    `(client_employee_id, COUNT(*), ROUND(stat, 2))`, order count DESC.
    The SQL has no LIMIT clause. -/
def kpiFlagTable (flag : SilverTimesheet → Nat) (stat : List SilverTimesheet → ℚ)
    (ts : List SilverTimesheet) : List (Option String × Nat × ℚ) :=
  let qual := qualRows flag ts
  let keys := dedupByKey (fun x => x) (qual.map (fun r => r.client_employee_id))
  List.insertionSort countGe
    (keys.map (fun k =>
      let g := qual.filter (fun r => decide (r.client_employee_id = k))
      (k, g.length, round2 (stat g))))

/-- The `kpi_late_arrivals` gold table. -/
def kpiLateArrivals (ts : List SilverTimesheet) : List (Option String × Nat × ℚ) :=
  kpiFlagTable (fun r => r.is_late) (fun g => avgQ (g.map (fun r => r.minutes_late))) ts

/-- The `kpi_early_departures` gold table. -/
def kpiEarlyDepartures (ts : List SilverTimesheet) : List (Option String × Nat × ℚ) :=
  kpiFlagTable (fun r => r.is_early) (fun g => avgQ (g.map (fun r => r.minutes_early))) ts

/-- The `kpi_overtime` gold table (`SUM(hours_worked - 8)`). -/
def kpiOvertime (ts : List SilverTimesheet) : List (Option String × Nat × ℚ) :=
  kpiFlagTable (fun r => r.is_overtime)
    (fun g => (g.map (fun r => r.hours_worked - 8)).sum) ts

/-- The trailing window of the `ROWS BETWEEN 29 PRECEDING AND CURRENT ROW`
    frame at position `i` of one employee partition. -/
def rollWindow (l : List ℚ) (i : Nat) : List ℚ :=
  (l.take (i + 1)).drop (i + 1 - 30)

/-- Per-partition values of
    `ROUND(AVG(hours_worked) OVER (... ROWS BETWEEN 29 PRECEDING AND
    CURRENT ROW), 2)`, in partition order. -/
def rollingFor (l : List ℚ) : List ℚ :=
  (List.range l.length).map (fun i => round2 (avgQ (rollWindow l i)))

/-- One employee partition of `kpi_rolling_avg`: the `is_normal_work = 1`
    rows of that employee, ordered by `punch_apply_date`. -/
def empNormalSorted (ts : List SilverTimesheet) (k : Option String) :
    List SilverTimesheet :=
  List.insertionSort (tsDateAscRel (fun r => r.punch_apply_date))
    (ts.filter (fun r => decide (r.is_normal_work = 1 ∧ r.client_employee_id = k)))

/-- The output rows `(client_employee_id, punch_apply_date,
    rolling_30day_avg)` of one employee partition. -/
def empRollingRows (ts : List SilverTimesheet) (k : Option String) :
    List (Option String × Option Date × ℚ) :=
  let l := empNormalSorted ts k
  let v := rollingFor (l.map (fun r => r.hours_worked))
  (List.range l.length).map
    (fun i => (k, (l[i]?.bind (fun r => r.punch_apply_date)), (v[i]?).getD 0))

/-- The `kpi_rolling_avg` gold table, ordered `punch_apply_date` DESC. -/
def kpiRollingAvg (ts : List SilverTimesheet) : List (Option String × Option Date × ℚ) :=
  let nw := ts.filter (fun r => decide (r.is_normal_work = 1))
  let ids := dedupByKey (fun x => x) (nw.map (fun r => r.client_employee_id))
  List.insertionSort rollDescRel (ids.flatMap (fun k => empRollingRows ts k))

/-- `term_date - hire_date` as whole days (NULL when either is NULL):
    the interval test of `kpi_early_attrition`. -/
def attrDays (e : SilverEmployee) : Option Int :=
  match e.hire_date, e.term_date with
  | some h, some t => some ((dayNumber t : Int) - (dayNumber h : Int))
  | _, _ => none

/-- The `kpi_early_attrition` gold table: the two UNION ALL bucket rows. -/
def kpiEarlyAttrition (emps : List SilverEmployee) : List (String × Nat) :=
  [("Early Attrition (<90 days)",
      emps.countP (fun e =>
        decide (e.term_date ≠ none) &&
          (match attrDays e with
           | some z => decide (z < 90)
           | none => false))),
   ("Other Attrition (≥90 days)",
      emps.countP (fun e =>
        decide (e.term_date ≠ none) &&
          (match attrDays e with
           | some z => decide (90 ≤ z)
           | none => false)))]

/-! ### Quality gate and phase-5 orchestration -/

/-- Result of the `validate_data_quality` task: the row counts and null
    counts it SELECTs, and whether the `log.warning` branch at line 340
    fires.  The task raises only on database errors; on any data it
    completes and at most warns. -/
structure QualityReport where
  empCount : Nat
  tsCount : Nat
  nullIds : Nat
  nullDates : Nat
  warnNullIds : Bool
deriving DecidableEq

def validateDataQuality (emps : List SilverEmployee) (ts : List SilverTimesheet) :
    QualityReport :=
  { empCount := emps.length
    tsCount := ts.length
    nullIds := emps.countP (fun e => decide (e.client_employee_id = none))
    nullDates := emps.countP (fun e => decide (e.hire_date = none))
    warnNullIds := decide (0 < emps.countP (fun e => decide (e.client_employee_id = none))) }

/-- The fixed gold-table catalogue of `generate_kpis`, in loop order. -/
def kpiTableNames : List String :=
  ["kpi_active_headcount", "kpi_turnover_trend", "kpi_avg_tenure",
   "kpi_avg_working_hours", "kpi_late_arrivals", "kpi_early_departures",
   "kpi_overtime", "kpi_rolling_avg", "kpi_early_attrition"]

/-- A dataless run of the nine CREATE TABLE statements: each gold table
    name paired with its row count (the `SELECT COUNT(*)` the task logs). -/
def generateKpisRun (emps : List SilverEmployee) (ts : List SilverTimesheet) :
    List (String × Nat) :=
  [("kpi_active_headcount", (kpiActiveHeadcount ts emps).length),
   ("kpi_turnover_trend", (kpiTurnoverTrend emps).length),
   ("kpi_avg_tenure", (kpiAvgTenure emps).length),
   ("kpi_avg_working_hours", (kpiAvgWorkingHours ts).length),
   ("kpi_late_arrivals", (kpiLateArrivals ts).length),
   ("kpi_early_departures", (kpiEarlyDepartures ts).length),
   ("kpi_overtime", (kpiOvertime ts).length),
   ("kpi_rolling_avg", (kpiRollingAvg ts).length),
   ("kpi_early_attrition", (kpiEarlyAttrition emps).length)]

/-- Phase 5 of `etl_pipeline` (lines 377-379): the quality check runs,
    then KPI generation runs; the pipeline never branches on the report. -/
def runQualityAndKpis (emps : List SilverEmployee) (ts : List SilverTimesheet) :
    QualityReport × List (String × Nat) :=
  (validateDataQuality emps ts, generateKpisRun emps ts)

/-! ### Control flow of the KPI loop (claim C1)

The nine `CREATE TABLE` statements run inside one `try` block
(lines 298-311); an exception from any statement is logged and
re-raised, aborting the loop.  `fails t = true` abstracts "the SQL for
table `t` raises". -/

/-- Log events of `generate_kpis`. -/
inductive KpiLog where
  | generated (t : String)
  | failed (t : String)
deriving DecidableEq

/-- Outcome of the `generate_kpis` task body: the tables created before
    the task returned or raised, the log, and the exception (if any)
    that propagated out of the task. -/
structure KpiBatchOutcome where
  materialized : List String
  log : List KpiLog
  raised : Option String
deriving DecidableEq

/-- The `for table_name, query in kpi_queries` loop: each iteration
    creates its table, or raises — ending the whole task. -/
def runKpiBatchGo (fails : String → Bool) :
    List String → List String → List KpiLog → KpiBatchOutcome
  | [], made, lg => ⟨made.reverse, lg.reverse, none⟩
  | t :: rest, made, lg =>
    if fails t then ⟨made.reverse, (KpiLog.failed t :: lg).reverse, some t⟩
    else runKpiBatchGo fails rest (t :: made) (KpiLog.generated t :: lg)

/-- The `generate_kpis` task under the failure assignment `fails`. -/
def runKpiBatch (fails : String → Bool) : KpiBatchOutcome :=
  runKpiBatchGo fails kpiTableNames [] []

/-! ### Specification-side characterizations for the amended claims -/

/-- Spec-side reading of the amended claim C2: the distinct non-null
    employee ids for which SOME `punch_apply_date` of month `m` in the
    timesheet data satisfies the active-as-of predicate. -/
def activeIdsPerSpec (ts : List SilverTimesheet) (emps : List SilverEmployee)
    (m : Option (Nat × Nat)) : List String :=
  dedupByKey (fun x => x)
    ((emps.filter (fun e =>
        decide (∃ t ∈ ts, monthKey t.punch_apply_date = m ∧
          activeOnB e.hire_date e.term_date t.punch_apply_date = true))).filterMap
      (fun e => e.client_employee_id))

/-- Property bundle of the amended claim C5 for one of the three
    per-flag KPI tables: each employee with a qualifying row appears
    with its count of qualifying rows and the rounded aggregate, the
    table is ordered count-descending, and it has one row per distinct
    qualifying employee — no top-20 cap. -/
def flagTableOK (flag : SilverTimesheet → Nat) (stat : List SilverTimesheet → ℚ) : Prop :=
  ∀ ts k, (∃ r ∈ qualRows flag ts, r.client_employee_id = k) →
    ((k, (qualRows flag ts).countP (fun r => decide (r.client_employee_id = k)),
        round2 (stat ((qualRows flag ts).filter (fun r => decide (r.client_employee_id = k)))))
      ∈ kpiFlagTable flag stat ts)
    ∧ List.Sorted countGe (kpiFlagTable flag stat ts)
    ∧ (kpiFlagTable flag stat ts).length =
        (dedupByKey (fun x => x) ((qualRows flag ts).map (fun r => r.client_employee_id))).length

/-! ### Concrete fixtures for counterexamples and witnesses -/

/-- Failure assignment where exactly the second KPI statement raises. -/
def failsTurnover : String → Bool := fun t => t == "kpi_turnover_trend"

/-- Employee hired 2023-01-01 and terminated 2023-06-15 (claim C2's
    example employee). -/
def c2Emp : SilverEmployee :=
  { client_employee_id := some "E1"
    department_name := none
    hire_date := some ⟨2023, 1, 1⟩
    term_date := some ⟨2023, 6, 15⟩
    dob := none
    job_start_date := none
    active_status := 1
    fte_status := "Unknown"
    is_active := 0
    tenure_days := some 165 }

/-- A silver timesheet row with `punch_apply_date` 2023-06-10 — a June
    punch date strictly before the example employee's termination. -/
def c2Ts : SilverTimesheet :=
  { client_employee_id := some "E1"
    punch_apply_date := some ⟨2023, 6, 10⟩
    punch_in_datetime := none
    punch_out_datetime := none
    scheduled_start_datetime := none
    scheduled_end_datetime := none
    pay_code := some "normal_worked"
    hours_worked := 8
    is_normal_work := 1
    minutes_late := 0
    minutes_early := 0
    is_late := 0
    is_early := 0
    is_overtime := 0 }

/-- A late, normal-work silver row for employee `k`. -/
def lateTsRow (k : Option String) : SilverTimesheet :=
  { client_employee_id := k
    punch_apply_date := none
    punch_in_datetime := none
    punch_out_datetime := none
    scheduled_start_datetime := none
    scheduled_end_datetime := none
    pay_code := some "normal_worked"
    hours_worked := 8
    is_normal_work := 1
    minutes_late := 10
    minutes_early := 0
    is_late := 1
    is_early := 0
    is_overtime := 0 }

/-- 21 distinct employees, each with one late normal-work row: more
    qualifying employees than the top-20 cap claimed by C5. -/
def c5Rows : List SilverTimesheet :=
  (List.range 21).map (fun i => lateTsRow (some ("E" ++ toString i)))

/-- Date parser fixture recognizing the single literal cell of the C7
    witness (stands in for `pd.to_datetime` on that cell). -/
def pdC7 : String → Option Date :=
  fun s => if s = "2023-01-01" then some ⟨2023, 1, 1⟩ else none

/-- Raw roster row of the C7 witness: hired 2023-01-01, still active. -/
def rawEmpC7 : RawEmployee :=
  { client_employee_id := some "E1"
    department_name := none
    hire_date := some "2023-01-01"
    term_date := none
    dob := none
    job_start_date := none
    active_status := none
    fte_status := none }

/-- Timestamp parser fixture that parses nothing (every cell
    unparsable). -/
def ptNone : String → Option Int := fun _ => none

/-- Date parser fixture that parses nothing. -/
def pdNone : String → Option Date := fun _ => none

/-- Raw timesheet row whose punch and schedule cells all fail to parse. -/
def rawTsC8 : RawTimesheet :=
  { client_employee_id := some "E1"
    punch_apply_date := none
    punch_in_datetime := some "not a timestamp"
    punch_out_datetime := none
    scheduled_start_datetime := some "2023-13-45 99:99:99"
    scheduled_end_datetime := none
    pay_code := none
    hours_worked := 0 }

/-- Silver employee row with a NULL `client_employee_id` (C9 witness). -/
def nullIdEmp : SilverEmployee :=
  { client_employee_id := none
    department_name := none
    hire_date := some ⟨2023, 1, 1⟩
    term_date := none
    dob := none
    job_start_date := none
    active_status := 1
    fte_status := "Unknown"
    is_active := 1
    tenure_days := some 100 }

/-- Timestamp parser fixture mapping two textually different literals
    (space-separated and ISO `T`-separated) to the same instant, as
    `pd.to_datetime` does. -/
def ptC10 : String → Option Int :=
  fun s =>
    if s = "2024-01-02 08:00:00" then some 1704182400
    else if s = "2024-01-02T08:00:00" then some 1704182400
    else none

/-- Raw timesheet row for employee E1 with punch-in cell `s`. -/
def rowC10 (s : String) : RawTimesheet :=
  { client_employee_id := some "E1"
    punch_apply_date := none
    punch_in_datetime := some s
    punch_out_datetime := none
    scheduled_start_datetime := none
    scheduled_end_datetime := none
    pay_code := some "normal_worked"
    hours_worked := 8 }

/-- Timestamp parser fixture for the C4 boundary rows: scheduled start
    at second 0, punch-ins 10, 3 and exactly 5 minutes later. -/
def ptC4 : String → Option Int :=
  fun s =>
    if s = "start" then some 0
    else if s = "p10" then some 600
    else if s = "p3" then some 180
    else if s = "p5" then some 300
    else none

/-- Raw timesheet row with punch-in cell `p` against schedule `start`. -/
def rowLate (p : String) : RawTimesheet :=
  { client_employee_id := some "E1"
    punch_apply_date := none
    punch_in_datetime := some p
    punch_out_datetime := none
    scheduled_start_datetime := some "start"
    scheduled_end_datetime := none
    pay_code := none
    hours_worked := 0 }

/-- Raw timesheet row with `hours_worked` = `q` and no timestamps. -/
def rowHours (q : ℚ) : RawTimesheet :=
  { client_employee_id := some "E1"
    punch_apply_date := none
    punch_in_datetime := none
    punch_out_datetime := none
    scheduled_start_datetime := none
    scheduled_end_datetime := none
    pay_code := none
    hours_worked := q }

/-! ### Lemmas about first-occurrence deduplication -/

theorem mem_of_mem_dedupByKeyAux {α κ : Type} [DecidableEq κ] (key : α → κ) :
    ∀ (seen : List κ) (l : List α) (x : α), x ∈ dedupByKeyAux key seen l → x ∈ l := by
  intro seen l
  induction l generalizing seen with
  | nil => intro x h; simp [dedupByKeyAux] at h
  | cons a l ih =>
    intro x h
    simp only [dedupByKeyAux] at h
    split at h
    · exact List.mem_cons_of_mem a (ih seen x h)
    · rcases List.mem_cons.mp h with h1 | h2
      · exact h1 ▸ List.mem_cons_self a l
      · exact List.mem_cons_of_mem a (ih _ x h2)

theorem mem_map_key_dedupByKeyAux {α κ : Type} [DecidableEq κ] (key : α → κ) :
    ∀ (seen : List κ) (l : List α) (k : κ),
      k ∈ (dedupByKeyAux key seen l).map key ↔ k ∉ seen ∧ k ∈ l.map key := by
  intro seen l
  induction l generalizing seen with
  | nil => intro k; simp [dedupByKeyAux]
  | cons a l ih =>
    intro k
    simp only [dedupByKeyAux]
    split
    · rename_i hm
      rw [ih seen k]
      simp only [List.map_cons, List.mem_cons]
      constructor
      · rintro ⟨hns, hk⟩
        exact ⟨hns, Or.inr hk⟩
      · rintro ⟨hns, hk | hk⟩
        · exact absurd (by rw [hk]; exact hm) hns
        · exact ⟨hns, hk⟩
    · rename_i hm
      simp only [List.map_cons, List.mem_cons, ih (key a :: seen) k]
      constructor
      · rintro (hk | ⟨hns, hk⟩)
        · exact ⟨by rw [hk]; exact hm, Or.inl hk⟩
        · exact ⟨fun hs => hns (Or.inr hs), Or.inr hk⟩
      · rintro ⟨hns, hk | hk⟩
        · exact Or.inl hk
        · by_cases hek : k = key a
          · exact Or.inl hek
          · exact Or.inr ⟨fun hc => hc.elim hek hns, hk⟩

theorem nodup_map_key_dedupByKeyAux {α κ : Type} [DecidableEq κ] (key : α → κ) :
    ∀ (seen : List κ) (l : List α), ((dedupByKeyAux key seen l).map key).Nodup := by
  intro seen l
  induction l generalizing seen with
  | nil => simp [dedupByKeyAux]
  | cons a l ih =>
    simp only [dedupByKeyAux]
    split
    · exact ih seen
    · simp only [List.map_cons, List.nodup_cons]
      refine ⟨fun hc => ?_, ih (key a :: seen)⟩
      exact ((mem_map_key_dedupByKeyAux key (key a :: seen) l (key a)).mp hc).1
        (List.mem_cons_self _ _)

theorem filter_key_dedupByKeyAux {α κ : Type} [DecidableEq κ] (key : α → κ) (k : κ) :
    ∀ (seen : List κ) (l : List α),
      (dedupByKeyAux key seen l).filter (fun a => decide (key a = k)) =
        if k ∈ seen then [] else (l.filter (fun a => decide (key a = k))).take 1 := by
  intro seen l
  induction l generalizing seen with
  | nil => simp [dedupByKeyAux]
  | cons a l ih =>
    simp only [dedupByKeyAux]
    split
    · rename_i hm
      rw [ih seen]
      by_cases hks : k ∈ seen
      · simp [hks]
      · rw [if_neg hks, if_neg hks, List.filter_cons]
        have hak : ¬ (key a = k) := fun he => hks (by rw [← he]; exact hm)
        simp [hak]
    · rename_i hm
      rw [List.filter_cons, List.filter_cons]
      by_cases hak : key a = k
      · subst hak
        have hdec : decide (key a = key a) = true := by simp
        rw [if_neg hm, if_pos hdec, if_pos hdec, ih (key a :: seen),
          if_pos (List.mem_cons_self _ _)]
        simp
      · have hdec : ¬ (decide (key a = k) = true) := by simp [hak]
        rw [if_neg hdec, if_neg hdec, ih (key a :: seen)]
        by_cases hks : k ∈ seen
        · rw [if_pos (List.mem_cons_of_mem _ hks), if_pos hks]
        · rw [if_neg (fun hc => (List.mem_cons.mp hc).elim (fun he => hak he.symm) hks),
            if_neg hks]

theorem dedupByKey_filter_key {α κ : Type} [DecidableEq κ] (key : α → κ) (k : κ)
    (l : List α) :
    (dedupByKey key l).filter (fun a => decide (key a = k)) =
      (l.filter (fun a => decide (key a = k))).take 1 := by
  rw [dedupByKey, filter_key_dedupByKeyAux, if_neg (List.not_mem_nil k)]

theorem mem_dedupByKey_id {α : Type} [DecidableEq α] (l : List α) (x : α) :
    x ∈ dedupByKey (fun y => y) l ↔ x ∈ l := by
  have h := mem_map_key_dedupByKeyAux (fun y => y) [] l x
  simpa [dedupByKey, List.map_id'] using h

theorem nodup_dedupByKey_id {α : Type} [DecidableEq α] (l : List α) :
    (dedupByKey (fun y => y) l).Nodup := by
  have h := nodup_map_key_dedupByKeyAux (fun y => y) [] l
  simpa [dedupByKey, List.map_id'] using h

theorem length_dedupByKey_id {α : Type} [DecidableEq α] (l : List α) :
    (dedupByKey (fun y => y) l).length = l.toFinset.card := by
  rw [← List.toFinset_card_of_nodup (nodup_dedupByKey_id l)]
  congr 1
  ext x
  simp [List.mem_toFinset, mem_dedupByKey_id]

theorem length_dedupByKey_id_congr {α : Type} [DecidableEq α] (A B : List α)
    (h : ∀ x, x ∈ A ↔ x ∈ B) :
    (dedupByKey (fun y => y) A).length = (dedupByKey (fun y => y) B).length := by
  rw [length_dedupByKey_id, length_dedupByKey_id]
  congr 1
  ext x
  simp only [List.mem_toFinset]
  exact h x

/-! ### Small helper lemmas -/

theorem b2i_eq_one (b : Bool) : b2i b = 1 ↔ b = true := by
  cases b <;> simp [b2i]

theorem b2i_eq_zero (b : Bool) : b2i b = 0 ↔ b = false := by
  cases b <;> simp [b2i]

theorem minutesDiff_none_left (b : Option Int) : minutesDiff none b = 0 := by
  cases b <;> rfl

theorem minutesDiff_none_right (a : Option Int) : minutesDiff a none = 0 := by
  cases a <;> rfl

theorem floor_one_half_q : Int.floor ((1 : ℚ) / 2) = 0 := by
  rw [Int.floor_eq_iff]
  norm_num

theorem round2_intCast (z : ℤ) : round2 ((z : ℚ)) = (z : ℚ) := by
  rw [round2]
  by_cases hq : ((z : ℚ)) < 0
  · rw [if_pos hq]
    have hneg : -(((z : ℚ)) * 100) = (((-z) * 100 : ℤ) : ℚ) := by push_cast; ring
    rw [hneg]
    have hfl : Int.floor ((((-z) * 100 : ℤ) : ℚ) + 1 / 2) = (-z) * 100 := by
      rw [Int.floor_int_add, floor_one_half_q]
      ring
    rw [hfl]
    push_cast
    field_simp
  · rw [if_neg hq]
    have h100 : ((z : ℚ)) * 100 + 1 / 2 = (((z * 100 : ℤ) : ℚ)) + 1 / 2 := by
      push_cast; ring
    rw [h100]
    have hfl : Int.floor ((((z * 100 : ℤ) : ℚ)) + 1 / 2) = z * 100 := by
      rw [Int.floor_int_add, floor_one_half_q]
      ring
    rw [hfl]
    push_cast
    field_simp

/-- Unfolded characterization of the `generate_kpis` loop under a
    failure assignment: the tables created are those before the first
    failing statement, the log records them plus the one failure, and
    the first failing table's exception propagates. -/
theorem runKpiBatchGo_spec (fails : String → Bool) :
    ∀ (l : List String) (made : List String) (lg : List KpiLog),
      runKpiBatchGo fails l made lg =
        ⟨made.reverse ++ l.takeWhile (fun t => !fails t),
         lg.reverse ++ ((l.takeWhile (fun t => !fails t)).map KpiLog.generated ++
           ((l.dropWhile (fun t => !fails t)).head?.map KpiLog.failed).toList),
         (l.dropWhile (fun t => !fails t)).head?⟩ := by
  intro l
  induction l with
  | nil => intro made lg; simp [runKpiBatchGo]
  | cons t rest ih =>
    intro made lg
    simp only [runKpiBatchGo]
    by_cases hf : fails t
    · rw [if_pos hf]
      simp [List.takeWhile_cons, List.dropWhile_cons, hf]
    · rw [if_neg hf]
      rw [ih (t :: made) (KpiLog.generated t :: lg)]
      simp [List.takeWhile_cons, List.dropWhile_cons, hf]

/-! ### Claim theorems -/

/-- Claim C1 counterexample: with exactly one of the nine KPI
    computations failing (the second, `kpi_turnover_trend`), the task
    materializes only `kpi_active_headcount` and re-raises; the seven
    non-failing tables after the failure point — e.g. `kpi_rolling_avg`
    — are NOT materialized, contradicting "the remaining eight KPI
    tables are still materialized". -/
theorem claim1_counterexample :
    (runKpiBatch failsTurnover).materialized = ["kpi_active_headcount"]
    ∧ (runKpiBatch failsTurnover).raised = some "kpi_turnover_trend"
    ∧ (runKpiBatch failsTurnover).log =
        [KpiLog.generated "kpi_active_headcount", KpiLog.failed "kpi_turnover_trend"]
    ∧ "kpi_rolling_avg" ∉ (runKpiBatch failsTurnover).materialized := by
  refine ⟨by decide, by decide, by decide, by decide⟩

/-- Claim C1 (amended): if a KPI computation fails, the failure is
    logged and `generate_kpis` re-raises the exception; the tables
    before the first failing one in catalogue order are materialized and
    every table from the failing one onward is skipped. -/
theorem claim1_amended (fails : String → Bool) :
    (runKpiBatch fails).materialized = kpiTableNames.takeWhile (fun t => !fails t)
    ∧ (runKpiBatch fails).raised = (kpiTableNames.dropWhile (fun t => !fails t)).head?
    ∧ (runKpiBatch fails).log =
        (kpiTableNames.takeWhile (fun t => !fails t)).map KpiLog.generated ++
          ((kpiTableNames.dropWhile (fun t => !fails t)).head?.map KpiLog.failed).toList := by
  rw [runKpiBatch, runKpiBatchGo_spec]
  simp

/-- Claim C3: both transforms deduplicate on their documented key with
    first-occurrence-wins: the silver rows at a key are exactly the
    image of the first raw row carrying that key (employees), and the
    timesheet output is the row image of the first-occurrence sublist of
    the raw input under the (id, raw punch-in cell) key. -/
theorem claim3_dedup (parseD : String → Option Date) (parseT : String → Option Int)
    (now : Date) (lE : List RawEmployee) (lT : List RawTimesheet)
    (kE : Option String) (kT : Option String × Option String) :
    ((transformEmployees parseD now lE).filter
        (fun s => decide (s.client_employee_id = kE)) =
      ((lE.filter (fun r => decide (r.client_employee_id = kE))).take 1).map
        (transformEmpRow parseD now))
    ∧ (transformTimesheets parseD parseT lT =
        (dedupByKey tsRawKey lT).map (transformTsRow parseD parseT))
    ∧ ((dedupByKey tsRawKey lT).filter (fun r => decide (tsRawKey r = kT)) =
        (lT.filter (fun r => decide (tsRawKey r = kT))).take 1) := by
  refine ⟨?_, rfl, dedupByKey_filter_key tsRawKey kT lT⟩
  rw [transformEmployees, List.filter_map]
  have hcomp : (fun s : SilverEmployee => decide (s.client_employee_id = kE)) ∘
      transformEmpRow parseD now = fun r => decide (r.client_employee_id = kE) := by
    funext r
    simp [transformEmpRow]
  rw [hcomp]
  exact congrArg _ (dedupByKey_filter_key (fun r => r.client_employee_id) kE lE)

/-- Claim C4: `is_late` iff `minutes_late > 5`, `is_early` iff
    `minutes_early > 5`, `is_overtime` iff `hours_worked > 8.5`, all
    exclusive; a 10-minute-late punch gives `minutes_late = 10` and
    `is_late`, 3 minutes gives not-late, exactly 5 minutes gives
    not-late, `hours_worked = 8.5` gives not-overtime, `8.51` gives
    overtime. -/
theorem claim4_flags (parseD : String → Option Date) (parseT : String → Option Int)
    (r : RawTimesheet) :
    ((transformTsRow parseD parseT r).is_late = 1 ↔
      5 < (transformTsRow parseD parseT r).minutes_late)
    ∧ ((transformTsRow parseD parseT r).is_early = 1 ↔
      5 < (transformTsRow parseD parseT r).minutes_early)
    ∧ ((transformTsRow parseD parseT r).is_overtime = 1 ↔
      (8.5 : ℚ) < (transformTsRow parseD parseT r).hours_worked)
    ∧ (transformTsRow pdNone ptC4 (rowLate "p10")).minutes_late = 10
    ∧ (transformTsRow pdNone ptC4 (rowLate "p10")).is_late = 1
    ∧ (transformTsRow pdNone ptC4 (rowLate "p3")).minutes_late = 3
    ∧ (transformTsRow pdNone ptC4 (rowLate "p3")).is_late = 0
    ∧ (transformTsRow pdNone ptC4 (rowLate "p5")).minutes_late = 5
    ∧ (transformTsRow pdNone ptC4 (rowLate "p5")).is_late = 0
    ∧ (transformTsRow pdNone ptC4 (rowHours (8.5 : ℚ))).is_overtime = 0
    ∧ (transformTsRow pdNone ptC4 (rowHours (8.51 : ℚ))).is_overtime = 1 := by
  refine ⟨?_, ?_, ?_, ?_, ?_, ?_, ?_, ?_, ?_, ?_, ?_⟩
  · simp only [transformTsRow, b2i_eq_one, decide_eq_true_eq]
  · simp only [transformTsRow, b2i_eq_one, decide_eq_true_eq]
  · simp only [transformTsRow, b2i_eq_one, decide_eq_true_eq]
  all_goals
    (simp [transformTsRow, rowLate, rowHours, ptC4, pdNone, minutesDiff, b2i_eq_one,
      b2i_eq_zero, decide_eq_true_eq, decide_eq_false_iff_not] <;> norm_num)

/-- Claim C7: `is_active` is 1 iff the coerced `term_date` is null;
    `tenure_days` is the whole number of days from `hire_date` to
    `term_date`, or to the run's "now" when `term_date` is null
    (2023-01-01 → 2024-01-01 gives 365); a `hire_date` after
    `term_date` yields a negative (but defined) value — the transform is
    a total function and completes. -/
theorem claim7_tenure (parseD : String → Option Date) (now : Date) (r : RawEmployee) :
    ((transformEmpRow parseD now r).is_active = 1 ↔
      (transformEmpRow parseD now r).term_date = none)
    ∧ (∀ h, (transformEmpRow parseD now r).hire_date = some h →
        (transformEmpRow parseD now r).tenure_days =
          some ((dayNumber (((transformEmpRow parseD now r).term_date).getD now) : Int) -
            (dayNumber h : Int)))
    ∧ tenureDays (some ⟨2023, 1, 1⟩) none ⟨2024, 1, 1⟩ = some 365
    ∧ (∀ h t now2, dayNumber t < dayNumber h →
        ∃ z, tenureDays (some h) (some t) now2 = some z ∧ z < 0) := by
  refine ⟨?_, ?_, ?_, ?_⟩
  · simp [transformEmpRow, b2i_eq_one, Option.isNone_iff_eq_none]
  · intro h hh
    simp only [transformEmpRow] at hh ⊢
    simp [tenureDays, hh]
  · decide
  · intro h t now2 hlt
    refine ⟨(dayNumber t : Int) - (dayNumber h : Int), by simp [tenureDays], by omega⟩

/-- Claim C7 witness: concrete active employee hired 2023-01-01
    evaluated at now = 2024-01-01, and a concrete negative-tenure pair. -/
theorem claim7_witness :
    (((transformEmpRow pdC7 ⟨2024, 1, 1⟩ rawEmpC7).is_active = 1 ↔
      (transformEmpRow pdC7 ⟨2024, 1, 1⟩ rawEmpC7).term_date = none)
    ∧ (transformEmpRow pdC7 ⟨2024, 1, 1⟩ rawEmpC7).tenure_days =
        some ((dayNumber (((transformEmpRow pdC7 ⟨2024, 1, 1⟩ rawEmpC7).term_date).getD
          ⟨2024, 1, 1⟩) : Int) - (dayNumber ⟨2023, 1, 1⟩ : Int)))
    ∧ (∃ z, tenureDays (some ⟨2024, 1, 1⟩) (some ⟨2023, 1, 1⟩) ⟨2023, 6, 1⟩ = some z ∧
        z < 0) :=
  ⟨⟨(claim7_tenure pdC7 ⟨2024, 1, 1⟩ rawEmpC7).1,
    (claim7_tenure pdC7 ⟨2024, 1, 1⟩ rawEmpC7).2.1 ⟨2023, 1, 1⟩ (by decide)⟩,
    (claim7_tenure pdC7 ⟨2024, 1, 1⟩ rawEmpC7).2.2.2 ⟨2024, 1, 1⟩ ⟨2023, 1, 1⟩ ⟨2023, 6, 1⟩
      (by decide)⟩

/-- Claim C8: unparsable date/timestamp cells become missing instead of
    raising (the transforms are total and store the coercion result);
    a row with a missing punch-in or scheduled-start has
    `minutes_late = 0` (and is not late), and likewise a missing
    punch-out or scheduled-end gives `minutes_early = 0`. -/
theorem claim8_nulls (parseD : String → Option Date) (parseT : String → Option Int)
    (r : RawTimesheet) :
    ((r.punch_in_datetime.bind parseT = none ∨
        r.scheduled_start_datetime.bind parseT = none) →
      (transformTsRow parseD parseT r).minutes_late = 0
      ∧ (transformTsRow parseD parseT r).is_late = 0)
    ∧ ((r.punch_out_datetime.bind parseT = none ∨
        r.scheduled_end_datetime.bind parseT = none) →
      (transformTsRow parseD parseT r).minutes_early = 0
      ∧ (transformTsRow parseD parseT r).is_early = 0)
    ∧ (transformTsRow parseD parseT r).punch_in_datetime = r.punch_in_datetime.bind parseT
    ∧ (∀ re : RawEmployee, ∀ now,
        (transformEmpRow parseD now re).hire_date = re.hire_date.bind parseD) := by
  refine ⟨?_, ?_, rfl, fun _ _ => rfl⟩
  · intro h
    have hml : minutesDiff (r.punch_in_datetime.bind parseT)
        (r.scheduled_start_datetime.bind parseT) = 0 := by
      rcases h with h | h
      · rw [h, minutesDiff_none_left]
      · rw [h, minutesDiff_none_right]
    constructor
    · simp only [transformTsRow]
      exact hml
    · simp only [transformTsRow]
      rw [hml, b2i_eq_zero, decide_eq_false_iff_not]
      norm_num
  · intro h
    have hml : minutesDiff (r.scheduled_end_datetime.bind parseT)
        (r.punch_out_datetime.bind parseT) = 0 := by
      rcases h with h | h
      · rw [h, minutesDiff_none_right]
      · rw [h, minutesDiff_none_left]
    constructor
    · simp only [transformTsRow]
      exact hml
    · simp only [transformTsRow]
      rw [hml, b2i_eq_zero, decide_eq_false_iff_not]
      norm_num

/-- Claim C8 witness: a concrete row whose timestamp cells all fail to
    parse (`ptNone` parses nothing). -/
theorem claim8_witness :
    ((transformTsRow pdNone ptNone rawTsC8).minutes_late = 0
      ∧ (transformTsRow pdNone ptNone rawTsC8).is_late = 0)
    ∧ ((transformTsRow pdNone ptNone rawTsC8).minutes_early = 0
      ∧ (transformTsRow pdNone ptNone rawTsC8).is_early = 0) :=
  ⟨(claim8_nulls pdNone ptNone rawTsC8).1 (Or.inl rfl),
    (claim8_nulls pdNone ptNone rawTsC8).2.1 (Or.inl rfl)⟩

/-- Claim C9: the quality gate is an observability event, not a gate:
    for any silver dataset — in particular one with a NULL
    `client_employee_id` — phase 5 produces the warning in the report
    and still materializes all nine KPI tables. -/
theorem claim9_quality (emps : List SilverEmployee) (ts : List SilverTimesheet)
    (hnull : ∃ e ∈ emps, e.client_employee_id = none) :
    (runQualityAndKpis emps ts).1.warnNullIds = true
    ∧ (runQualityAndKpis emps ts).2.map Prod.fst = kpiTableNames := by
  constructor
  · simp only [runQualityAndKpis, validateDataQuality]
    rw [decide_eq_true_eq, List.countP_pos_iff]
    obtain ⟨e, he, hid⟩ := hnull
    exact ⟨e, he, by simp [hid]⟩
  · simp [runQualityAndKpis, generateKpisRun, kpiTableNames]

/-- Claim C9 witness: a one-row silver employee table whose only row has
    a NULL id. -/
theorem claim9_witness :
    (runQualityAndKpis [nullIdEmp] []).1.warnNullIds = true
    ∧ (runQualityAndKpis [nullIdEmp] []).2.map Prod.fst = kpiTableNames :=
  claim9_quality [nullIdEmp] [] ⟨nullIdEmp, by simp, rfl⟩

/-- Claim C10: timesheet deduplication runs on the raw
    `punch_in_datetime` strings before date coercion, so two rows of the
    same employee whose punch-in cells are textually different but parse
    to the same instant both survive into the silver output. -/
theorem claim10_rawdedup (parseD : String → Option Date) (parseT : String → Option Int)
    (s1 s2 : String) (hne : s1 ≠ s2) (hpt : parseT s1 = parseT s2) :
    transformTimesheets parseD parseT [rowC10 s1, rowC10 s2] =
      [transformTsRow parseD parseT (rowC10 s1), transformTsRow parseD parseT (rowC10 s2)]
    ∧ (transformTsRow parseD parseT (rowC10 s1)).punch_in_datetime =
        (transformTsRow parseD parseT (rowC10 s2)).punch_in_datetime := by
  constructor
  · rw [transformTimesheets]
    have hd : dedupByKey tsRawKey [rowC10 s1, rowC10 s2] = [rowC10 s1, rowC10 s2] := by
      rw [dedupByKey]
      simp [dedupByKeyAux, tsRawKey, rowC10, Ne.symm hne]
    rw [hd]
    rfl
  · simp [transformTsRow, rowC10, hpt]

/-- Claim C10 witness: `2024-01-02 08:00:00` and `2024-01-02T08:00:00`
    parse to the same instant under the `pd.to_datetime` stand-in
    `ptC10`, and both rows survive. -/
theorem claim10_witness :
    transformTimesheets pdNone ptC10
        [rowC10 "2024-01-02 08:00:00", rowC10 "2024-01-02T08:00:00"] =
      [transformTsRow pdNone ptC10 (rowC10 "2024-01-02 08:00:00"),
       transformTsRow pdNone ptC10 (rowC10 "2024-01-02T08:00:00")]
    ∧ (transformTsRow pdNone ptC10 (rowC10 "2024-01-02 08:00:00")).punch_in_datetime =
        (transformTsRow pdNone ptC10 (rowC10 "2024-01-02T08:00:00")).punch_in_datetime :=
  claim10_rawdedup pdNone ptC10 "2024-01-02 08:00:00" "2024-01-02T08:00:00"
    (by decide) (by decide)

/-- Claim C6: in the rolling-average KPI, the value at position `i` of
    an employee partition is the rounded average of `hours_worked` over
    that row plus the 29 immediately preceding partition rows
    (`(l.drop (i - 29)).take 30` when the frame is full); with fewer
    than 30 rows available it averages only the first `i + 1` rows; for
    35 constant-8 rows the 30th value is exactly 8 and the 5th value is
    the mean of the first 5 rows; every per-employee output row appears
    in the `kpi_rolling_avg` table. -/
theorem claim6_rolling :
    (∀ (l : List ℚ) (i : Nat), 29 ≤ i → i < l.length →
      (rollingFor l)[i]? = some (round2 (avgQ ((l.drop (i - 29)).take 30))))
    ∧ (∀ (l : List ℚ) (i : Nat), i < 29 → i < l.length →
      (rollingFor l)[i]? = some (round2 (avgQ (l.take (i + 1)))))
    ∧ (rollingFor (List.replicate 35 (8 : ℚ)))[29]? = some 8
    ∧ (rollingFor (List.replicate 35 (8 : ℚ)))[4]? =
        some (round2 (avgQ ((List.replicate 35 (8 : ℚ)).take 5)))
    ∧ (∀ ts k, empRollingRows ts k ⊆ kpiRollingAvg ts) := by
  have hfull : ∀ (l : List ℚ) (i : Nat), 29 ≤ i → i < l.length →
      (rollingFor l)[i]? = some (round2 (avgQ ((l.drop (i - 29)).take 30))) := by
    intro l i h29 hlen
    have hw : rollWindow l i = (l.drop (i - 29)).take 30 := by
      rw [rollWindow, List.drop_take]
      have h1 : i + 1 - 30 = i - 29 := by omega
      have h2 : i + 1 - (i + 1 - 30) = 30 := by omega
      rw [h1, ← h1, h2, h1]
    rw [rollingFor, List.getElem?_map, List.getElem?_range hlen]
    simp [hw]
  have hpart : ∀ (l : List ℚ) (i : Nat), i < 29 → i < l.length →
      (rollingFor l)[i]? = some (round2 (avgQ (l.take (i + 1)))) := by
    intro l i h29 hlen
    have hw : rollWindow l i = l.take (i + 1) := by
      have h0 : i + 1 - 30 = 0 := by omega
      rw [rollWindow, h0, List.drop_zero]
    rw [rollingFor, List.getElem?_map, List.getElem?_range hlen]
    simp [hw]
  refine ⟨hfull, hpart, ?_, ?_, ?_⟩
  · have h := hfull (List.replicate 35 (8 : ℚ)) 29 (by norm_num) (by simp)
    have hl : ((List.replicate 35 (8 : ℚ)).drop (29 - 29)).take 30 =
        List.replicate 30 (8 : ℚ) := by
      norm_num [List.take_replicate]
    rw [h, hl]
    have havg : avgQ (List.replicate 30 (8 : ℚ)) = 8 := by
      rw [avgQ, List.sum_replicate, List.length_replicate]
      norm_num
    rw [havg]
    have h8 : ((8 : ℤ) : ℚ) = (8 : ℚ) := by norm_num
    rw [← h8, round2_intCast, h8]
  · exact hpart (List.replicate 35 (8 : ℚ)) 4 (by norm_num) (by simp)
  · intro ts k x hx
    have hx0 := hx
    simp only [empRollingRows] at hx0
    obtain ⟨i, hi, hxe⟩ := List.mem_map.mp hx0
    have hilen : i < (empNormalSorted ts k).length := List.mem_range.mp hi
    obtain ⟨r, hr⟩ : ∃ r, r ∈ empNormalSorted ts k :=
      List.exists_mem_of_length_pos (Nat.lt_of_le_of_lt (Nat.zero_le i) hilen)
    have hrf : r ∈ ts.filter
        (fun s => decide (s.is_normal_work = 1 ∧ s.client_employee_id = k)) := by
      have hperm := List.perm_insertionSort (tsDateAscRel (fun s => s.punch_apply_date))
        (ts.filter (fun s => decide (s.is_normal_work = 1 ∧ s.client_employee_id = k)))
      exact hperm.mem_iff.mp hr
    obtain ⟨hrts, hrp⟩ := List.mem_filter.mp hrf
    rw [decide_eq_true_eq] at hrp
    obtain ⟨hnorm, hid⟩ := hrp
    simp only [kpiRollingAvg]
    rw [(List.perm_insertionSort rollDescRel _).mem_iff]
    apply List.mem_flatMap.mpr
    refine ⟨k, ?_, hx⟩
    apply (mem_dedupByKey_id _ _).mpr
    apply List.mem_map.mpr
    exact ⟨r, List.mem_filter.mpr ⟨hrts, by simp [hnorm]⟩, hid⟩

/-- Claim C6 witness: the window identities applied to the employee
    stream of 35 constant-8 daily rows at the 30th and 5th positions. -/
theorem claim6_witness :
    (rollingFor (List.replicate 35 (8 : ℚ)))[29]? =
      some (round2 (avgQ (((List.replicate 35 (8 : ℚ)).drop (29 - 29)).take 30)))
    ∧ (rollingFor (List.replicate 35 (8 : ℚ)))[4]? =
        some (round2 (avgQ ((List.replicate 35 (8 : ℚ)).take (4 + 1)))) :=
  ⟨claim6_rolling.1 (List.replicate 35 (8 : ℚ)) 29 (by norm_num) (by simp),
   claim6_rolling.2.1 (List.replicate 35 (8 : ℚ)) 4 (by norm_num) (by simp)⟩

/-- Shared proof that each per-flag KPI table satisfies the (amended)
    C5 property bundle: the SQL is a plain GROUP BY with ORDER BY count
    DESC and no LIMIT, regardless of the flag and aggregate used. -/
theorem flagTableOK_all (flag : SilverTimesheet → Nat) (stat : List SilverTimesheet → ℚ) :
    flagTableOK flag stat := by
  intro ts k hex
  refine ⟨?_, ?_, ?_⟩
  · obtain ⟨r, hr, hid⟩ := hex
    have hk : k ∈ (qualRows flag ts).map (fun r => r.client_employee_id) :=
      List.mem_map.mpr ⟨r, hr, hid⟩
    have hk2 : k ∈ dedupByKey (fun x => x)
        ((qualRows flag ts).map (fun r => r.client_employee_id)) :=
      (mem_dedupByKey_id _ _).mpr hk
    have hmem : (k,
        ((qualRows flag ts).filter (fun r => decide (r.client_employee_id = k))).length,
        round2 (stat ((qualRows flag ts).filter (fun r => decide (r.client_employee_id = k)))))
        ∈ (dedupByKey (fun x => x)
            ((qualRows flag ts).map (fun r => r.client_employee_id))).map
          (fun k2 => (k2,
            ((qualRows flag ts).filter (fun r => decide (r.client_employee_id = k2))).length,
            round2 (stat ((qualRows flag ts).filter
              (fun r => decide (r.client_employee_id = k2)))))) :=
      List.mem_map.mpr ⟨k, hk2, rfl⟩
    simp only [kpiFlagTable]
    rw [(List.perm_insertionSort countGe _).mem_iff, List.countP_eq_length_filter]
    exact hmem
  · simp only [kpiFlagTable]
    exact List.sorted_insertionSort countGe _
  · simp only [kpiFlagTable]
    rw [(List.perm_insertionSort countGe _).length_eq, List.length_map]

/-- Claim C5 counterexample: with 21 distinct employees each having one
    late normal-work row, `kpi_late_arrivals` has 21 rows — the query
    has no LIMIT clause, so the table is not capped to the top 20
    rows. -/
theorem claim5_counterexample :
    (kpiLateArrivals c5Rows).length = 21 ∧ ¬((kpiLateArrivals c5Rows).length ≤ 20) := by
  have h : (kpiLateArrivals c5Rows).length = 21 := by decide
  exact ⟨h, by rw [h]; omega⟩

/-- Claim C5 (amended): each of `kpi_late_arrivals`,
    `kpi_early_departures` and `kpi_overtime` contains, for every
    employee with at least one row passing its flag and
    `is_normal_work`, that employee's count of qualifying rows and the
    rounded aggregate (mean minutes, resp. summed extra hours), ordered
    descending by count, with one row per distinct qualifying employee
    and no top-20 cap. -/
theorem claim5_amended :
    flagTableOK (fun r => r.is_late) (fun g => avgQ (g.map (fun r => r.minutes_late)))
    ∧ flagTableOK (fun r => r.is_early) (fun g => avgQ (g.map (fun r => r.minutes_early)))
    ∧ flagTableOK (fun r => r.is_overtime)
        (fun g => (g.map (fun r => r.hours_worked - 8)).sum) :=
  ⟨flagTableOK_all _ _, flagTableOK_all _ _, flagTableOK_all _ _⟩

/-- Claim C5 witness: the late-arrivals component applied to the
    concrete 21-employee dataset at employee E0. -/
theorem claim5_witness :
    List.Sorted countGe (kpiLateArrivals c5Rows)
    ∧ (kpiLateArrivals c5Rows).length =
        (dedupByKey (fun x => x)
          ((qualRows (fun r => r.is_late) c5Rows).map
            (fun r => r.client_employee_id))).length := by
  have h := claim5_amended.1 c5Rows (some "E0") (by decide)
  exact ⟨h.2.1, h.2.2⟩

/-- The `COUNT(DISTINCT CASE ...)` of one month group of
    `kpi_active_headcount` equals the number of distinct non-null
    employee ids having some qualifying punch date in that month: the
    cross-join/CASE/COUNT-DISTINCT pipeline and the per-employee
    existential count the same id set. -/
theorem headcountFor_eq_spec (ts : List SilverTimesheet) (emps : List SilverEmployee)
    (m : Option (Nat × Nat)) :
    headcountFor ts emps m = (activeIdsPerSpec ts emps m).length := by
  rw [headcountFor, activeIdsPerSpec]
  apply length_dedupByKey_id_congr
  intro i
  constructor
  · intro hi
    rw [headcountIds] at hi
    obtain ⟨p, hp, hsel⟩ := List.mem_filterMap.mp hi
    obtain ⟨hpc, hpm⟩ := List.mem_filter.mp hp
    rw [decide_eq_true_eq] at hpm
    obtain ⟨t, ht, hpt⟩ := List.mem_flatMap.mp hpc
    obtain ⟨e, he, hpe⟩ := List.mem_map.mp hpt
    subst hpe
    have he2 := (mem_dedupByKey_id _ _).mp he
    obtain ⟨e0, he0, hke⟩ := List.mem_map.mp he2
    subst hke
    rw [caseSel] at hsel
    by_cases hact : activeOnB (empKey e0).2.1 (empKey e0).2.2 t.punch_apply_date = true
    · rw [if_pos hact] at hsel
      apply List.mem_filterMap.mpr
      refine ⟨e0, ?_, hsel⟩
      apply List.mem_filter.mpr
      refine ⟨he0, ?_⟩
      rw [decide_eq_true_eq]
      exact ⟨t, ht, hpm, hact⟩
    · rw [if_neg hact] at hsel
      exact absurd hsel (by simp)
  · intro hi
    obtain ⟨e0, he0f, hid⟩ := List.mem_filterMap.mp hi
    obtain ⟨he0, hcond⟩ := List.mem_filter.mp he0f
    rw [decide_eq_true_eq] at hcond
    obtain ⟨t, ht, hm, hact⟩ := hcond
    rw [headcountIds]
    apply List.mem_filterMap.mpr
    refine ⟨(t, empKey e0), ?_, ?_⟩
    · apply List.mem_filter.mpr
      constructor
      · apply List.mem_flatMap.mpr
        exact ⟨t, ht, List.mem_map.mpr ⟨empKey e0,
          (mem_dedupByKey_id _ _).mpr (List.mem_map.mpr ⟨e0, he0, rfl⟩), rfl⟩⟩
      · rw [decide_eq_true_eq]
        exact hm
    · rw [caseSel]
      show (if activeOnB e0.hire_date e0.term_date t.punch_apply_date = true
        then e0.client_employee_id else none) = some i
      rw [if_pos hact]
      exact hid

/-- Claim C2 counterexample: the example employee (hired 2023-01-01,
    terminated 2023-06-15) IS counted as active for June 2023 when the
    timesheet data contains a June punch date before the 15th — the
    June headcount is 1, not 0 as "is not counted for June 2023"
    requires. -/
theorem claim2_counterexample :
    kpiActiveHeadcount [c2Ts] [c2Emp] = [(some (2023, 6), 1)]
    ∧ (some ((2023 : Nat), (6 : Nat)), (0 : Nat)) ∉ kpiActiveHeadcount [c2Ts] [c2Emp] :=
  ⟨by decide, by decide⟩

/-- Claim C2 (amended): every month present in the timesheet data gets
    a row, and the count for month `m` is the number of distinct
    non-null employee ids for which SOME individual `punch_apply_date`
    of month `m` in the data satisfies `hire_date ≤` it and `term_date`
    null or after it; the predicate is evaluated per punch date, not
    against one per-month reference date, so an employee terminated
    mid-month is still counted for that month whenever an earlier
    in-month punch date exists. -/
theorem claim2_amended (ts : List SilverTimesheet) (emps : List SilverEmployee)
    (m : Option (Nat × Nat)) :
    ((∃ t ∈ ts, monthKey t.punch_apply_date = m) →
      ∃ c, (m, c) ∈ kpiActiveHeadcount ts emps)
    ∧ (∀ c, (m, c) ∈ kpiActiveHeadcount ts emps →
        c = (activeIdsPerSpec ts emps m).length) := by
  constructor
  · rintro ⟨t, ht, hm⟩
    refine ⟨headcountFor ts emps m, ?_⟩
    simp only [kpiActiveHeadcount]
    apply List.mem_map.mpr
    refine ⟨m, ?_, rfl⟩
    rw [(List.perm_insertionSort optMonthDescRel _).mem_iff]
    exact (mem_dedupByKey_id _ _).mpr (List.mem_map.mpr ⟨t, ht, hm⟩)
  · intro c hc
    simp only [kpiActiveHeadcount] at hc
    obtain ⟨m2, hm2, he⟩ := List.mem_map.mp hc
    have h1 : m2 = m := congrArg Prod.fst he
    have h2 : headcountFor ts emps m2 = c := congrArg Prod.snd he
    subst h1
    rw [← h2]
    exact headcountFor_eq_spec ts emps m2

/-- Claim C2 witness: the amended characterization applied to the
    concrete June dataset — the June 2023 row exists and its count 1
    equals the spec-side distinct-id count. -/
theorem claim2_witness :
    (∃ c, (some ((2023 : Nat), (6 : Nat)), c) ∈ kpiActiveHeadcount [c2Ts] [c2Emp])
    ∧ (1 : Nat) = (activeIdsPerSpec [c2Ts] [c2Emp] (some (2023, 6))).length :=
  ⟨(claim2_amended [c2Ts] [c2Emp] (some (2023, 6))).1 ⟨c2Ts, by simp, by decide⟩,
   (claim2_amended [c2Ts] [c2Emp] (some (2023, 6))).2 1 (by decide)⟩

end ETL
